import Mathlib

/-!
Verification development for `claude_batch_mcp.py`, a one-file batch-job
lifecycle manager with two backends (Anthropic Message Batches, Vertex
BatchPredictionJobs), durable local job state, polling with jittered
exponential backoff, and cache-first result fetching.

Shallow embedding conventions:
* JSON values are modelled by the inductive `JValue`; the Python stdlib
  `json.loads` is abstracted as a `parse : String → Option JValue`
  parameter where a payload arrives as text, and the Anthropic results
  stream is given as the parsed objects of its non-blank lines.
  `json.dumps` is modelled by the canonical serializer `dumps`
  (indentation / `ensure_ascii` formatting abstracted).
* Python floats are modelled as exact rationals (ℚ); timestamps are
  rationals, with ISO formatting/parsing abstracted as `fmt`/`parseTime`
  function parameters (stdlib `datetime`).
* Remote HTTP and object-storage calls are modelled as `Except`-valued
  inputs (`.error` = the call raised an exception).
* The local filesystem of result artifacts is a map
  `String → Option String` from path to content.
* Python truthiness of optional strings (`if not api_key`, `if custom_id`)
  is `truthyS`; truthiness of JSON values (`a or b` chains) is
  `JValue.truthy`.
-/

/-- JSON values, the shape `json.loads` produces. Numbers are modelled as
integers (no claim depends on fractional JSON numbers). -/
inductive JValue where
  | null
  | bool (b : Bool)
  | num (n : Int)
  | str (s : String)
  | arr (items : List JValue)
  | obj (fields : List (String × JValue))

/-- Python `dict.get(k)`: `none` when the key is absent or the value is not
an object (the source would raise `AttributeError` on a non-dict receiver;
no claim exercises that corner). First binding wins, as keys are unique in
every payload the source builds or reads. -/
def JValue.get? : JValue → String → Option JValue
  | .obj fields, k => (fields.find? (fun p => p.1 == k)).map (fun p => p.2)
  | _, _ => none

/-- Python `dict.get(k, d)`. -/
def JValue.getD (v : JValue) (k : String) (d : JValue) : JValue :=
  (v.get? k).getD d

/-- Python `v == s` for a string literal `s`: true exactly when the JSON
value is that string. -/
def isStrEq (v : Option JValue) (s : String) : Bool :=
  match v with
  | some (.str t) => t == s
  | _ => false

/-- Python truthiness of a JSON value (`bool(v)`). -/
def JValue.truthy : JValue → Bool
  | .null => false
  | .bool b => b
  | .num n => n != 0
  | .str s => s != ""
  | .arr items => !items.isEmpty
  | .obj fields => !fields.isEmpty

/-- Python truthiness of an optional string (`None` and `""` are falsy). -/
def truthyS : Option String → Bool
  | none => false
  | some s => s != ""

/-- Python `block.get(k, d)` read as a string (every payload the claims
exercise stores a string there). -/
def getStrD (v : JValue) (k : String) (d : String) : String :=
  match v.get? k with
  | some (.str t) => t
  | _ => d

/-- Python `str.strip()` with no argument: drop leading and trailing
whitespace (Lean's `Char.isWhitespace` covers the ASCII whitespace Python
strips; implemented over the character list so that it evaluates). -/
def pyStrip (s : String) : String :=
  ⟨((s.data.dropWhile Char.isWhitespace).reverse.dropWhile Char.isWhitespace).reverse⟩

/-- Whether the character list `a` ends with `b`. -/
def listEndsWith (a b : List Char) : Bool :=
  if b.length ≤ a.length then a.drop (a.length - b.length) == b else false

/-- Python `str.endswith(suffix)`. -/
def pyEndsWith (s suff : String) : Bool := listEndsWith s.data suff.data

mutual
/-- Model of `json.dumps`: a canonical serialization of the value
(whitespace / indent options of the source's two `dumps` call sites are
abstracted; what matters to the claims is which object is serialized). -/
def dumps : JValue → String
  | .null => "null"
  | .bool true => "true"
  | .bool false => "false"
  | .num n => toString n
  | .str s => "\"" ++ s ++ "\""
  | .arr items => "[" ++ dumpsList items ++ "]"
  | .obj fields => "\x7b" ++ dumpsFields fields ++ "\x7d"

/-- Serialize a JSON array body. -/
def dumpsList : List JValue → String
  | [] => ""
  | [v] => dumps v
  | v :: rest => dumps v ++ ", " ++ dumpsList rest

/-- Serialize a JSON object body. -/
def dumpsFields : List (String × JValue) → String
  | [] => ""
  | [kv] => "\"" ++ kv.1 ++ "\": " ++ dumps kv.2
  | kv :: rest => "\"" ++ kv.1 ++ "\": " ++ dumps kv.2 ++ ", " ++ dumpsFields rest
end

/-- Python `custom_id and cid == custom_id` (the equality half): the
entry's `custom_id` field equals the given correlation id string. -/
def matchesCid (custom_id : Option String) (cidv : Option JValue) : Bool :=
  match custom_id with
  | some s => isStrEq cidv s
  | none => false

/-- The text blocks of a `message.content` array:
`[block.get("text", "") for block in content
  if isinstance(block, dict) and block.get("type") == "text"]`. -/
def anthropicTextBlocks (content : List JValue) : List String :=
  content.filterMap (fun block =>
    match block with
    | .obj _ =>
      if isStrEq (block.get? "type") "text" then some (getStrD block "text" "")
      else none
    | _ => none)

/-- The per-line loop of `AnthropicBatchBackend.extract_text_from_jsonl`,
over the parsed non-blank lines, with the accumulated chunks (the source's
`out_chunks`, kept reversed). -/
def extractLoop (custom_id : Option String) : List JValue → List String → String
  | [], acc => pyStrip (String.intercalate "\n\n" acc.reverse)
  | entry :: rest, acc =>
    let cidv := entry.get? "custom_id"
    if truthyS custom_id && !matchesCid custom_id cidv then
      extractLoop custom_id rest acc
    else
      let result := entry.getD "result" (.obj [])
      if !isStrEq (result.get? "type") "succeeded" then
        if truthyS custom_id && matchesCid custom_id cidv then dumps entry
        else extractLoop custom_id rest acc
      else
        let content :=
          match (result.getD "message" (.obj [])).get? "content" with
          | some (.arr items) => items
          | _ => []
        let texts := anthropicTextBlocks content
        if !texts.isEmpty then
          extractLoop custom_id rest (String.intercalate "\n" texts :: acc)
        else
          extractLoop custom_id rest acc

/-- `AnthropicBatchBackend.extract_text_from_jsonl`: the stream is given as
the parsed objects of its non-blank lines (stdlib line split and
`json.loads` abstracted). -/
def extract_text_from_jsonl (entries : List JValue) (custom_id : Option String) : String :=
  extractLoop custom_id entries []

/-- Split a character list at newline characters. -/
def splitLinesAux : List Char → List Char → List String
  | [], acc => [⟨acc.reverse⟩]
  | c :: rest, acc =>
    if c = '\n' then (⟨acc.reverse⟩ : String) :: splitLinesAux rest []
    else splitLinesAux rest (c :: acc)

/-- Python `str.splitlines()` (universal-newline variants abstracted to
`"\n"`; a trailing empty piece is skipped as a blank line by every
caller). -/
def pySplitlines (s : String) : List String := splitLinesAux s.data []

/-- Python `obj.get("response") or obj.get("predictions") or
obj.get("prediction") or obj` — first truthy wins. -/
def vertexPayload (entry : JValue) : JValue :=
  let r := entry.getD "response" .null
  if r.truthy then r
  else
    let p := entry.getD "predictions" .null
    if p.truthy then p
    else
      let q := entry.getD "prediction" .null
      if q.truthy then q else entry

/-- The per-entry output of `extract_text_from_vertex_jsonl`: the joined
non-blank text blocks when the payload carries any, else the serialized
raw entry. -/
def vertexLineOut (entry : JValue) : String :=
  let payload := vertexPayload entry
  let fromContent : Option String :=
    match payload with
    | .obj _ =>
      match payload.get? "content" with
      | some (.arr items) =>
        let texts := anthropicTextBlocks items
        if texts.any (fun t => pyStrip t != "") then
          some (String.intercalate "\n" (texts.filter (fun t => pyStrip t != "")))
        else none
      | _ => none
    | _ => none
  match fromContent with
  | some t => t
  | none => dumps entry

/-- The line loop of `VertexBatchBackend.extract_text_from_vertex_jsonl`;
`parse` is stdlib `json.loads`, whose failure raises out of the call. -/
def vertexExtractLoop (parse : String → Option JValue) :
    List String → List String → Except String String
  | [], acc => .ok (pyStrip (String.intercalate "\n\n" acc.reverse))
  | line :: rest, acc =>
    let l := pyStrip line
    if l == "" then vertexExtractLoop parse rest acc
    else
      match parse l with
      | none => .error "invalid json line"
      | some entry => vertexExtractLoop parse rest (vertexLineOut entry :: acc)

/-- `VertexBatchBackend.extract_text_from_vertex_jsonl`. -/
def extract_text_from_vertex_jsonl (parse : String → Option JValue) (jsonl : String) :
    Except String String :=
  vertexExtractLoop parse (pySplitlines jsonl) []

/-- Lexicographic code-point comparison on char lists, as Python compares
strings in `sorted`. -/
def pyStrLeAux : List Char → List Char → Bool
  | [], _ => true
  | _ :: _, [] => false
  | a :: as, b :: bs =>
    if a.toNat < b.toNat then true
    else if b.toNat < a.toNat then false
    else pyStrLeAux as bs

/-- Python string comparison `a <= b`. -/
def pyStrLe (a b : String) : Bool := pyStrLeAux a.data b.data

/-- The comparison `pyStrLe` as a decidable relation for sorting. -/
def strRel (a b : String) : Prop := pyStrLe a b = true

instance : DecidableRel strRel := fun _ _ => inferInstanceAs (Decidable (_ = true))

/-- Python `sorted` on strings: a sort of the list with respect to the
code-point order (Python's sort is stable, but `strRel` is antisymmetric,
so any correct sort gives the same list). -/
def pySorted (l : List String) : List String := List.insertionSort strRel l

/-- `VertexBatchBackend.fetch_output_text`: `listing` is the object listing
returned for the output location `out_uri`, `download` is the
object-storage download. Keeps the `.jsonl`-suffixed subset when non-empty,
errors when nothing is listed, and joins downloads in sorted order. -/
def fetch_output_text (listing : List String) (download : String → String)
    (out_uri : String) : Except String String :=
  let filtered := listing.filter (fun o => pyEndsWith o ".jsonl")
  let objs := if filtered.isEmpty then listing else filtered
  if objs.isEmpty then .error ("No output objects found under " ++ out_uri)
  else .ok (String.intercalate "\n" ((pySorted objs).map download))

/-- `backoff_next_delay_s` with explicit parameters; `j` is the value drawn
by `random.uniform(-jitter, jitter)`. Floats modelled as exact rationals. -/
def backoff_next_delay_s (attempt : Int) (j : ℚ) (base : ℚ) (factor : ℚ) (cap : ℚ) : ℚ :=
  let raw := min cap (base * factor ^ (max 0 attempt).toNat)
  max 1 (raw * (1 + j))

/-- `backoff_next_delay_s` at the source's default parameters
(base 15, factor 1.7, cap 300). -/
def backoffDefault (attempt : Int) (j : ℚ) : ℚ :=
  backoff_next_delay_s attempt j 15 (17/10) 300

/-- The unjittered center `min(cap, base * factor**attempt)` of the default
backoff. -/
def backoffCenter (attempt : Int) : ℚ :=
  min 300 (15 * (17/10 : ℚ) ^ (max 0 attempt).toNat)

/-- The mapping `load_jobs` returns when the store file does not exist:
`\x7b"version": 1, "jobs": \x7b\x7d\x7d`. -/
def emptyJobsObj : JValue := .obj [("version", .num 1), ("jobs", .obj [])]

/-- `load_jobs`: `file` is the content of the store file (`none` = the file
does not exist), `parse` is stdlib `json.loads`; a decode failure is
re-raised as a fatal error. -/
def load_jobs (parse : String → Option JValue) (file : Option String) : Except String JValue :=
  match file with
  | none => .ok emptyJobsObj
  | some content =>
    match parse content with
    | some v => .ok v
    | none => .error "Failed to read jobs file"

/-- Backend tag. -/
inductive BackendName where
  | anthropic
  | vertex
deriving DecidableEq

/-- The process environment variables the core reads (`os.getenv`;
`none` = unset). `vertex_gcs_pfx` is `VERTEX_GCS_PREFIX`. -/
structure Env where
  anthropic_api_key : Option String
  vertex_project : Option String
  vertex_location : Option String
  vertex_gcs_bucket : Option String
  vertex_gcs_pfx : Option String
deriving DecidableEq

/-- Python `str.lower()`, character-wise (the backend selectors compared
against are ASCII). -/
def pyLower (s : String) : String := ⟨s.data.map Char.toLower⟩

/-- `choose_backend`. -/
def choose_backend (requested : String) (env : Env) : Except String BackendName :=
  let req := pyLower requested
  if req == "anthropic" then .ok .anthropic
  else if req == "vertex" then .ok .vertex
  else
    let has_vertex := truthyS env.vertex_project && truthyS env.vertex_location
      && truthyS env.vertex_gcs_bucket
    let has_anthropic := truthyS env.anthropic_api_key
    if has_vertex then .ok .vertex
    else if has_anthropic then .ok .anthropic
    else .error "No backend creds found. Set VERTEX_PROJECT/VERTEX_LOCATION/VERTEX_GCS_BUCKET or ANTHROPIC_API_KEY."

/-- `JobRecord` (`gcs_output_uri_pfx` embeds the source field
`gcs_output_uri_` followed by `prefix`, renamed only for the tool chain). -/
structure JobRecord where
  job_id : String
  backend : BackendName
  label : Option String
  created_at : String
  state : String
  packet_sha256 : String
  result_path : String
  meta_path : String
  attempt : Int
  next_poll_at : Option String
  anthropic_custom_id : Option String
  vertex_project : Option String
  vertex_location : Option String
  gcs_input_uri : Option String
  gcs_output_uri_pfx : Option String
deriving DecidableEq

/-- `make_result_paths`. -/
def make_result_paths (results_dir : String) (job_id : String) : String × String :=
  let safe_id := job_id.replace "/" "_"
  (results_dir ++ "/" ++ safe_id ++ ".md", results_dir ++ "/" ++ safe_id ++ ".meta.json")

/-- The persisted job table, keyed by `job_id` (the `"jobs"` mapping of
`jobs.json`). -/
abbrev JobsMap := List (String × JobRecord)

/-- Python dict assignment `jobs_obj["jobs"][k] = r`. -/
def storeInsert (m : JobsMap) (k : String) (r : JobRecord) : JobsMap :=
  if (List.any m (fun p => p.1 == k)) then
    List.map (fun p => if p.1 == k then (k, r) else p) m
  else m ++ [(k, r)]

/-- The remote side of one Anthropic-backend submission: the batch-create
call (`AnthropicBatchBackend.submit_one`), `.error` = the HTTP call raised. -/
structure SubmitEffects where
  submitA : Except String String
  submitV : Except String (String × String × String)

/-- `submit_job`. Abstractions: `sha` is `hashlib.sha256` over the packet,
`now_iso` the `utc_now_iso()` reading, `custom_id` the generated
correlation id; the Vertex submission (GCS input upload followed by the
job-create call, `VertexBatchBackend.submit_one`) is the single fallible
remote step `eff.submitV`, returning the job name and the input/output GCS
locations. Returns the new record, the updated job table, and the list of
per-job metadata snapshots written. -/
def submit_job (env : Env) (eff : SubmitEffects) (sha : String → String)
    (now_iso : String) (custom_id : String) (results_dir : String)
    (packet : String) (backend_choice : String) (label : Option String)
    (store : JobsMap) : Except String (JobRecord × JobsMap × List (String × JobRecord)) :=
  let packet_hash := sha packet
  match choose_backend backend_choice env with
  | .error e => .error e
  | .ok .anthropic =>
    if !truthyS env.anthropic_api_key then
      .error "ANTHROPIC_API_KEY is required for anthropic backend."
    else
      match eff.submitA with
      | .error e => .error e
      | .ok batch_id =>
        let paths := make_result_paths results_dir batch_id
        let jr : JobRecord :=
          { job_id := batch_id, backend := .anthropic, label := label,
            created_at := now_iso, state := "submitted",
            packet_sha256 := packet_hash, result_path := paths.1,
            meta_path := paths.2, attempt := 0, next_poll_at := some now_iso,
            anthropic_custom_id := some custom_id, vertex_project := none,
            vertex_location := none, gcs_input_uri := none,
            gcs_output_uri_pfx := none }
        .ok (jr, storeInsert store jr.job_id jr, [(jr.meta_path, jr)])
  | .ok .vertex =>
    if !(truthyS env.vertex_project && truthyS env.vertex_location
        && truthyS env.vertex_gcs_bucket) then
      .error "VERTEX_PROJECT, VERTEX_LOCATION, VERTEX_GCS_BUCKET are required for vertex backend."
    else
      match eff.submitV with
      | .error e => .error e
      | .ok triple =>
        let paths := make_result_paths results_dir triple.1
        let jr : JobRecord :=
          { job_id := triple.1, backend := .vertex, label := label,
            created_at := now_iso, state := "submitted",
            packet_sha256 := packet_hash, result_path := paths.1,
            meta_path := paths.2, attempt := 0, next_poll_at := some now_iso,
            anthropic_custom_id := none, vertex_project := env.vertex_project,
            vertex_location := env.vertex_location,
            gcs_input_uri := some triple.2.1,
            gcs_output_uri_pfx := some triple.2.2 }
        .ok (jr, storeInsert store jr.job_id jr, [(jr.meta_path, jr)])

/-- The remote side of one Anthropic-backend job: the batch-retrieve call
and the results-stream download (its parsed non-blank lines). -/
structure AnthropicRemote where
  retrieve : Except String JValue
  results : Except String (List JValue)

/-- The remote side of one Vertex-backend job: the job-resource retrieve,
the object listing under a GCS location, and the object download. -/
structure VertexRemote where
  retrieve : Except String JValue
  listing : String → List String
  download : String → String

/-- The outcome of a completed `fetch_job` call: the returned text, the
record as updated in place, whether the raw-payload artifact was written,
the content written to the result artifact (`none` on the cache path), and
whether any remote call was issued. -/
structure FetchResult where
  text : String
  job : JobRecord
  wroteRaw : Bool
  wroteResult : Option String
  remoteCalled : Bool
deriving DecidableEq

/-- An exception escaping `fetch_job`, carrying the record as mutated so
far (the Vertex branch may have filled `gcs_output_uri_pfx` before
raising). -/
structure FetchErr where
  msg : String
  job : JobRecord
deriving DecidableEq

/-- Python `state in done_states` for the Vertex terminal-state set. -/
def doneStates (s : Option JValue) : Bool :=
  isStrEq s "JOB_STATE_SUCCEEDED" || isStrEq s "JOB_STATE_FAILED"
    || isStrEq s "JOB_STATE_CANCELLED" || isStrEq s "JOB_STATE_PAUSED"

/-- `fetch_job`. `files` maps a path to the content of the result artifact
there (`none` = no file). The raw-artifact write of the Anthropic branch is
recorded as the `wroteRaw` flag. A non-string `outputUriPrefix` in the
retrieved job resource is modelled as the error the subsequent storage call
would raise on it. -/
def fetch_job (env : Env) (rA : String → AnthropicRemote) (rV : String → VertexRemote)
    (parse : String → Option JValue) (files : String → Option String)
    (jr : JobRecord) (force : Bool) : Except FetchErr FetchResult :=
  match files jr.result_path, force with
  | some cached, false => .ok ⟨cached, jr, false, none, false⟩
  | _, _ =>
    match jr.backend with
    | .anthropic =>
      if !truthyS env.anthropic_api_key then .error ⟨"ANTHROPIC_API_KEY missing.", jr⟩
      else
        match (rA jr.job_id).retrieve with
        | .error e => .error ⟨e, jr⟩
        | .ok info =>
          if !isStrEq (info.get? "processing_status") "ended" then
            .error ⟨"Batch not ended yet", jr⟩
          else
            match (rA jr.job_id).results with
            | .error e => .error ⟨e, jr⟩
            | .ok entries =>
              let text := extract_text_from_jsonl entries jr.anthropic_custom_id
              let jr' := { jr with state := if pyStrip text != "" then "succeeded" else "failed" }
              .ok ⟨text, jr', true, some (text ++ "\n"), true⟩
    | .vertex =>
      if !(truthyS env.vertex_project && truthyS env.vertex_location
          && truthyS env.vertex_gcs_bucket) then
        .error ⟨"VERTEX_PROJECT/VERTEX_LOCATION/VERTEX_GCS_BUCKET missing.", jr⟩
      else
        match (rV jr.job_id).retrieve with
        | .error e => .error ⟨e, jr⟩
        | .ok info =>
          let state := info.get? "state"
          if !doneStates state then .error ⟨"Vertex job not completed yet", jr⟩
          else
            let resolved : Except String JobRecord :=
              if truthyS jr.gcs_output_uri_pfx then .ok jr
              else
                match ((info.getD "outputConfig" .null).getD "gcsDestination" .null).get?
                    "outputUriPrefix" with
                | some (.str p) => .ok { jr with gcs_output_uri_pfx := some p }
                | some _ => .error "Missing gcs_output_uri_prefix; cannot fetch output."
                | none => .error "Missing gcs_output_uri_prefix; cannot fetch output."
            match resolved with
            | .error e => .error ⟨e, jr⟩
            | .ok jr' =>
              let out_uri := jr'.gcs_output_uri_pfx.getD ""
              match fetch_output_text ((rV jr.job_id).listing out_uri)
                  (rV jr.job_id).download out_uri with
              | .error e => .error ⟨e, jr'⟩
              | .ok out_jsonl =>
                match extract_text_from_vertex_jsonl parse out_jsonl with
                | .error e => .error ⟨e, jr'⟩
                | .ok text =>
                  let jr'' := { jr' with
                    state := if isStrEq state "JOB_STATE_SUCCEEDED" then "succeeded" else "failed" }
                  .ok ⟨text, jr'', false, some (text ++ "\n"), true⟩

/-- The result-artifact map after a fetch outcome is applied: the content
written at the record's result path, if any. -/
def filesAfter (files : String → Option String) (path : String) (w : Option String) :
    String → Option String :=
  match w with
  | none => files
  | some content => fun p => if p == path then some content else files p

/-- `status_job`: the structured status dict the source builds (missing
remote fields stored as JSON null, as Python `dict.get` yields `None`). -/
def status_job (env : Env) (rA : String → AnthropicRemote) (rV : String → VertexRemote)
    (jr : JobRecord) : Except String JValue :=
  match jr.backend with
  | .anthropic =>
    if !truthyS env.anthropic_api_key then .error "ANTHROPIC_API_KEY missing."
    else
      match (rA jr.job_id).retrieve with
      | .error e => .error e
      | .ok info =>
        .ok (.obj [("backend", .str "anthropic"),
          ("processing_status", info.getD "processing_status" .null),
          ("request_counts", info.getD "request_counts" (.obj [])),
          ("raw", info)])
  | .vertex =>
    if !(truthyS env.vertex_project && truthyS env.vertex_location
        && truthyS env.vertex_gcs_bucket) then
      .error "VERTEX_PROJECT/VERTEX_LOCATION/VERTEX_GCS_BUCKET missing."
    else
      match (rV jr.job_id).retrieve with
      | .error e => .error e
      | .ok info =>
        .ok (.obj [("backend", .str "vertex"),
          ("state", info.getD "state" .null), ("raw", info)])

/-- The dueness computation of `poll_once`: due by default; a truthy
`next_poll_at` is parsed (`parseTime` is `datetime.fromisoformat`) and a
parse failure falls back to due. -/
def job_due (parseTime : String → Option ℚ) (now : ℚ) (npa : Option String) : Bool :=
  match npa with
  | none => true
  | some s =>
    if s == "" then true
    else
      match parseTime s with
      | none => true
      | some t => decide (t ≤ now)

/-- The ambient inputs of one sweep: environment, per-job remote sides,
stdlib `json.loads` (`parse`), timestamp parsing/formatting, the jitter
drawn for each job's backoff, and the sweep's clock reading. -/
structure PollEnv where
  env : Env
  rA : String → AnthropicRemote
  rV : String → VertexRemote
  parse : String → Option JValue
  parseTime : String → Option ℚ
  fmt : ℚ → String
  jit : String → ℚ
  now : ℚ

/-- The backoff tail of the per-job poll body: compute the delay from the
current `attempt`, then increment `attempt` and advance `next_poll_at`. -/
def applyBackoff (P : PollEnv) (jr : JobRecord) : JobRecord :=
  let delay := backoffDefault jr.attempt (P.jit jr.job_id)
  { jr with
    attempt := jr.attempt + 1
    next_poll_at := some (P.fmt (P.now + delay)) }

/-- The body of `poll_once` for one record: skip terminal and not-yet-due
records; otherwise check status and either fetch (collecting the id) or
mark running and back off; any exception from the status or fetch call is
swallowed and the backoff tail still runs on the record as mutated so
far. Returns the ids newly completed, the updated record, and the updated
result-artifact map. -/
def pollStep (P : PollEnv) (files : String → Option String) (jr : JobRecord) :
    List String × JobRecord × (String → Option String) :=
  if jr.state == "succeeded" || jr.state == "failed" then ([], jr, files)
  else if !job_due P.parseTime P.now jr.next_poll_at then ([], jr, files)
  else
    match status_job P.env P.rA P.rV jr with
    | .error _ => ([], applyBackoff P jr, files)
    | .ok st =>
      match jr.backend with
      | .anthropic =>
        if isStrEq (st.get? "processing_status") "ended" then
          match fetch_job P.env P.rA P.rV P.parse files jr false with
          | .ok r => ([jr.job_id], r.job, filesAfter files jr.result_path r.wroteResult)
          | .error e => ([], applyBackoff P e.job, files)
        else ([], applyBackoff P { jr with state := "running" }, files)
      | .vertex =>
        if doneStates (st.get? "state") then
          match fetch_job P.env P.rA P.rV P.parse files jr false with
          | .ok r => ([jr.job_id], r.job, filesAfter files jr.result_path r.wroteResult)
          | .error e => ([], applyBackoff P e.job, files)
        else ([], applyBackoff P { jr with state := "running" }, files)

/-- `poll_once` over the snapshot of job records (`list_jobs`), threading
the result-artifact map: returns the ids that became terminal this sweep
and the updated records. -/
def poll_once (P : PollEnv) : List JobRecord → (String → Option String) →
    List String × List JobRecord
  | [], _ => ([], [])
  | jr :: rest, files =>
    let step := pollStep P files jr
    let tail := poll_once P rest step.2.2
    (step.1 ++ tail.1, step.2.1 :: tail.2)

/-- An environment with both backends' credentials set. -/
def envBoth : Env := ⟨some "k", some "p", some "l", some "b", none⟩

/-- An environment with no credentials set. -/
def envNone : Env := ⟨none, none, none, none, none⟩

/-- An Anthropic remote whose every call raises. -/
def rAErr : String → AnthropicRemote := fun _ => ⟨.error "net down", .error "net down"⟩

/-- A succeeded results-stream entry for correlation id `c` with text `hi`. -/
def aEntryGood : JValue :=
  .obj [("custom_id", .str "c"),
    ("result", .obj [("type", .str "succeeded"),
      ("message", .obj [("content",
        .arr [.obj [("type", .str "text"), ("text", .str "hi")]])])])]

/-- A succeeded results-stream entry for a foreign correlation id. -/
def aEntryForeign : JValue :=
  .obj [("custom_id", .str "zz"),
    ("result", .obj [("type", .str "succeeded"),
      ("message", .obj [("content",
        .arr [.obj [("type", .str "text"), ("text", .str "foreign")]])])])]

/-- A non-succeeded results-stream entry for correlation id `c`. -/
def aEntryErrored : JValue :=
  .obj [("custom_id", .str "c"),
    ("result", .obj [("type", .str "errored"), ("error", .str "overloaded")])]

/-- An Anthropic remote: batch ended, one succeeded entry for id `c`. -/
def rAok : String → AnthropicRemote :=
  fun _ => ⟨.ok (.obj [("processing_status", .str "ended")]), .ok [aEntryGood]⟩

/-- An Anthropic remote: batch ended, empty results stream. -/
def rAEmptyResults : String → AnthropicRemote :=
  fun _ => ⟨.ok (.obj [("processing_status", .str "ended")]), .ok []⟩

/-- A Vertex job resource in `JOB_STATE_FAILED`. -/
def vInfoFailed : JValue := .obj [("state", .str "JOB_STATE_FAILED")]

/-- A Vertex output line whose response carries the text `hello`. -/
def vLineHello : JValue :=
  .obj [("response", .obj [("content",
    .arr [.obj [("type", .str "text"), ("text", .str "hello")]])])]

/-- A Vertex remote: job failed, one output object containing `LINE1`. -/
def rVFailedHello : String → VertexRemote :=
  fun _ => ⟨.ok vInfoFailed, fun _ => ["gs://b/out/predictions.jsonl"], fun _ => "LINE1"⟩

/-- A decoder defined exactly on the one line the Vertex examples use. -/
def parseHello : String → Option JValue :=
  fun s => if s == "LINE1" then some vLineHello else none

/-- An empty result-artifact filesystem. -/
def noFiles : String → Option String := fun _ => none

/-- A non-terminal Vertex record with its output location recorded. -/
def jrVertexRunning : JobRecord :=
  { job_id := "v1", backend := .vertex, label := none, created_at := "t0",
    state := "running", packet_sha256 := "h", result_path := "rv.md",
    meta_path := "rv.meta.json", attempt := 0, next_poll_at := none,
    anthropic_custom_id := none, vertex_project := some "p",
    vertex_location := some "l", gcs_input_uri := some "gs://b/in",
    gcs_output_uri_pfx := some "gs://b/out" }

/-- A non-terminal Anthropic record with correlation id `c`. -/
def jrAnthRunning : JobRecord :=
  { job_id := "a1", backend := .anthropic, label := none, created_at := "t0",
    state := "running", packet_sha256 := "h", result_path := "ra.md",
    meta_path := "ra.meta.json", attempt := 0, next_poll_at := none,
    anthropic_custom_id := some "c", vertex_project := none,
    vertex_location := none, gcs_input_uri := none,
    gcs_output_uri_pfx := none }

/-- The Anthropic record already in the `succeeded` terminal state. -/
def jrAnthSucceeded : JobRecord := { jrAnthRunning with state := "succeeded" }

/-- The Anthropic record freshly submitted. -/
def jrAnthSubmitted : JobRecord := { jrAnthRunning with state := "submitted" }

/-- A filesystem holding an old result artifact for the Anthropic record. -/
def filesOld : String → Option String :=
  fun p => if p == "ra.md" then some "old\n" else none

/-- A sweep environment whose status calls all raise (no credentials). -/
def pollEnvErr : PollEnv :=
  ⟨envNone, rAErr, rVFailedHello, parseHello, fun _ => none, fun _ => "T1",
    fun _ => 0, 0⟩

/-- Whether a status result routes `poll_once` into `fetch_job`: the
Anthropic branch on `processing_status == "ended"`, the Vertex branch on a
terminal job state. -/
def fetchTriggered (jr : JobRecord) (st : JValue) : Bool :=
  match jr.backend with
  | .anthropic => isStrEq (st.get? "processing_status") "ended"
  | .vertex => doneStates (st.get? "state")

theorem pyStrLeAux_total (a : List Char) : ∀ b, pyStrLeAux a b = true ∨ pyStrLeAux b a = true := by
  induction a with
  | nil => intro b; left; rfl
  | cons x xs ih =>
    intro b
    cases b with
    | nil => right; rfl
    | cons y ys =>
      rcases Nat.lt_trichotomy x.toNat y.toNat with h | h | h
      · left; simp [pyStrLeAux, h]
      · have h1 : ¬ x.toNat < y.toNat := by omega
        have h2 : ¬ y.toNat < x.toNat := by omega
        simpa [pyStrLeAux, h1, h2] using ih ys
      · right; simp [pyStrLeAux, h]

theorem pyStrLeAux_trans (a : List Char) :
    ∀ b c, pyStrLeAux a b = true → pyStrLeAux b c = true → pyStrLeAux a c = true := by
  induction a with
  | nil => intro b c _ _; rfl
  | cons x xs ih =>
    intro b c hab hbc
    cases b with
    | nil => simp [pyStrLeAux] at hab
    | cons y ys =>
      cases c with
      | nil => simp [pyStrLeAux] at hbc
      | cons z zs =>
        rcases Nat.lt_trichotomy x.toNat y.toNat with hxy | hxy | hxy <;>
          rcases Nat.lt_trichotomy y.toNat z.toNat with hyz | hyz | hyz
        · simp [pyStrLeAux, show x.toNat < z.toNat by omega]
        · simp [pyStrLeAux, show x.toNat < z.toNat by omega]
        · simp [pyStrLeAux, show ¬ y.toNat < z.toNat by omega, hyz] at hbc
        · simp [pyStrLeAux, show x.toNat < z.toNat by omega]
        · have h1 : ¬ x.toNat < z.toNat := by omega
          have h2 : ¬ z.toNat < x.toNat := by omega
          have ha : pyStrLeAux xs ys = true := by
            simpa [pyStrLeAux, show ¬ x.toNat < y.toNat by omega,
              show ¬ y.toNat < x.toNat by omega] using hab
          have hb : pyStrLeAux ys zs = true := by
            simpa [pyStrLeAux, show ¬ y.toNat < z.toNat by omega,
              show ¬ z.toNat < y.toNat by omega] using hbc
          simpa [pyStrLeAux, h1, h2] using ih ys zs ha hb
        · simp [pyStrLeAux, show ¬ y.toNat < z.toNat by omega, hyz] at hbc
        · simp [pyStrLeAux, show ¬ x.toNat < y.toNat by omega, hxy] at hab
        · simp [pyStrLeAux, show ¬ x.toNat < y.toNat by omega, hxy] at hab
        · simp [pyStrLeAux, show ¬ x.toNat < y.toNat by omega, hxy] at hab

theorem pyStrLeAux_antisymm (a : List Char) :
    ∀ b, pyStrLeAux a b = true → pyStrLeAux b a = true → a = b := by
  induction a with
  | nil =>
    intro b _ hba
    cases b with
    | nil => rfl
    | cons y ys => simp [pyStrLeAux] at hba
  | cons x xs ih =>
    intro b hab hba
    cases b with
    | nil => simp [pyStrLeAux] at hab
    | cons y ys =>
      rcases Nat.lt_trichotomy x.toNat y.toNat with h | h | h
      · simp [pyStrLeAux, show ¬ y.toNat < x.toNat by omega, h] at hba
      · have hx : x = y := by
          cases x; cases y
          simp only [Char.toNat] at h
          congr 1
          exact UInt32.toNat.inj h
        have ha : pyStrLeAux xs ys = true := by
          simpa [pyStrLeAux, show ¬ x.toNat < y.toNat by omega,
            show ¬ y.toNat < x.toNat by omega] using hab
        have hb : pyStrLeAux ys xs = true := by
          simpa [pyStrLeAux, show ¬ y.toNat < x.toNat by omega,
            show ¬ x.toNat < y.toNat by omega] using hba
        rw [hx, ih ys ha hb]
      · simp [pyStrLeAux, show ¬ x.toNat < y.toNat by omega, h] at hab

instance : IsTotal String strRel :=
  ⟨fun a b => by
    rcases pyStrLeAux_total a.data b.data with h | h
    · exact Or.inl h
    · exact Or.inr h⟩

instance : IsTrans String strRel :=
  ⟨fun a b c hab hbc => pyStrLeAux_trans a.data b.data c.data hab hbc⟩

instance : IsAntisymm String strRel :=
  ⟨fun a b hab hba => String.ext (pyStrLeAux_antisymm a.data b.data hab hba)⟩

theorem pySorted_perm_eq (l₁ l₂ : List String) (h : List.Perm l₁ l₂) :
    pySorted l₁ = pySorted l₂ :=
  List.eq_of_perm_of_sorted
    (((List.perm_insertionSort strRel l₁).trans h).trans
      (List.perm_insertionSort strRel l₂).symm)
    (List.sorted_insertionSort strRel l₁) (List.sorted_insertionSort strRel l₂)

theorem perm_isEmpty_eq (l₁ l₂ : List String) (h : List.Perm l₁ l₂) :
    l₁.isEmpty = l₂.isEmpty := by
  cases l₁ <;> cases l₂ <;> simp_all

/-- C6: `fetch_output_text` is invariant under permutation of the storage
listing — two runs whose listings return the same objects in different
orders produce identical output — and whenever some listed name carries the
`.jsonl` suffix, only the suffixed subset is downloaded, concatenated in
sorted order. -/
theorem vertex_fetch_output_deterministic (l₁ l₂ : List String)
    (download : String → String) (out_uri : String) (h : List.Perm l₁ l₂) :
    fetch_output_text l₁ download out_uri = fetch_output_text l₂ download out_uri
    ∧ ∀ l : List String, (l.filter (fun o => pyEndsWith o ".jsonl")).isEmpty = false →
        fetch_output_text l download out_uri
          = .ok (String.intercalate "\n"
              ((pySorted (l.filter (fun o => pyEndsWith o ".jsonl"))).map download)) := by
  constructor
  · have hf : List.Perm (l₁.filter (fun o => pyEndsWith o ".jsonl"))
        (l₂.filter (fun o => pyEndsWith o ".jsonl")) := h.filter _
    have he : (l₁.filter (fun o => pyEndsWith o ".jsonl")).isEmpty
        = (l₂.filter (fun o => pyEndsWith o ".jsonl")).isEmpty := perm_isEmpty_eq _ _ hf
    have he₂ : l₁.isEmpty = l₂.isEmpty := perm_isEmpty_eq _ _ h
    cases hc : (l₁.filter (fun o => pyEndsWith o ".jsonl")).isEmpty with
    | true =>
      have hc₂ : (l₂.filter (fun o => pyEndsWith o ".jsonl")).isEmpty = true := by
        rw [← he, hc]
      simp only [fetch_output_text, hc, hc₂, if_true]
      rw [pySorted_perm_eq _ _ h, he₂]
    | false =>
      have hc₂ : (l₂.filter (fun o => pyEndsWith o ".jsonl")).isEmpty = false := by
        rw [← he, hc]
      simp only [fetch_output_text, hc, hc₂, Bool.false_eq_true, if_false]
      rw [pySorted_perm_eq _ _ hf]
  · intro l hl
    simp [fetch_output_text, hl]

/-- Witness for C6: the same two output objects listed in either order give
the same concatenated result. -/
theorem vertex_fetch_output_deterministic_witness :
    fetch_output_text ["gs://b/o/b.jsonl", "gs://b/o/a.jsonl"] (fun u => u) "gs://b/o"
      = fetch_output_text ["gs://b/o/a.jsonl", "gs://b/o/b.jsonl"] (fun u => u) "gs://b/o" :=
  (vertex_fetch_output_deterministic _ _ (fun u => u) "gs://b/o"
    (List.Perm.swap "gs://b/o/a.jsonl" "gs://b/o/b.jsonl" [])).1

/-- C8: `load_jobs` on a missing store file returns the empty, valid job
mapping and never errors; on a store file whose content cannot be decoded
it raises the fatal corrupt-state error rather than returning an empty
mapping. -/
theorem load_jobs_missing_vs_corrupt (parse : String → Option JValue) :
    load_jobs parse none = .ok emptyJobsObj
    ∧ ∀ s, parse s = none →
        load_jobs parse (some s) = .error "Failed to read jobs file" := by
  refine ⟨rfl, fun s hs => ?_⟩
  simp [load_jobs, hs]

/-- Witness for C8 at a decoder that fails on every input. -/
theorem load_jobs_missing_vs_corrupt_witness :
    load_jobs (fun _ => none) none = .ok emptyJobsObj
    ∧ load_jobs (fun _ => none) (some "garbage") = .error "Failed to read jobs file" :=
  ⟨(load_jobs_missing_vs_corrupt (fun _ => none)).1,
    (load_jobs_missing_vs_corrupt (fun _ => none)).2 "garbage" rfl⟩

/-- C7: the default backoff delay is `min(cap, base·factor^k)·(1+j)` clamped
below by the 1-second floor; for jitter draws within ±1/4 it lies in
`[1, 300·(1+1/4)]`; and the unjittered center is non-decreasing in the
attempt count up to the cap. -/
theorem backoff_delay_bounds_monotone (k k' : Int) (j : ℚ)
    (hj₁ : -(1/4) ≤ j) (hj₂ : j ≤ 1/4) (hkk : k ≤ k') :
    backoffDefault k j = max 1 (backoffCenter k * (1 + j))
    ∧ 1 ≤ backoffDefault k j
    ∧ backoffDefault k j ≤ 300 * (1 + 1/4)
    ∧ backoffCenter k ≤ backoffCenter k' := by
  have hcenter_le : backoffCenter k ≤ 300 := min_le_left _ _
  refine ⟨rfl, le_max_left _ _, ?_, ?_⟩
  · have h1 : backoffCenter k * (1 + j) ≤ 300 * (1 + 1/4) :=
      mul_le_mul hcenter_le (by linarith) (by linarith) (by norm_num)
    have h2 : backoffDefault k j = max 1 (backoffCenter k * (1 + j)) := rfl
    rw [h2]
    exact max_le (by norm_num) h1
  · unfold backoffCenter
    refine min_le_min le_rfl ?_
    refine mul_le_mul_of_nonneg_left ?_ (by norm_num)
    exact pow_le_pow_right₀ (by norm_num) (Int.toNat_le_toNat (max_le_max le_rfl hkk))

/-- Witness for C7 at attempt counts 0 and 1 with zero jitter. -/
theorem backoff_delay_bounds_monotone_witness :
    1 ≤ backoffDefault 0 0 ∧ backoffDefault 0 0 ≤ 300 * (1 + 1/4)
    ∧ backoffCenter 0 ≤ backoffCenter 1 :=
  ⟨(backoff_delay_bounds_monotone 0 1 0 (by norm_num) (by norm_num) (by norm_num)).2.1,
    (backoff_delay_bounds_monotone 0 1 0 (by norm_num) (by norm_num) (by norm_num)).2.2.1,
    (backoff_delay_bounds_monotone 0 1 0 (by norm_num) (by norm_num) (by norm_num)).2.2.2⟩

/-- C2: with the result artifact present and `force` false, `fetch_job`
returns the cached text, issues no remote call, writes nothing, and leaves
the record and artifact map unchanged, so a second call returns
byte-identical text. -/
theorem fetch_job_cached_idempotent (env : Env) (rA : String → AnthropicRemote)
    (rV : String → VertexRemote) (parse : String → Option JValue)
    (files : String → Option String) (jr : JobRecord) (cached : String)
    (h : files jr.result_path = some cached) :
    fetch_job env rA rV parse files jr false = .ok ⟨cached, jr, false, none, false⟩
    ∧ filesAfter files jr.result_path none = files
    ∧ fetch_job env rA rV parse (filesAfter files jr.result_path none) jr false
      = fetch_job env rA rV parse files jr false := by
  refine ⟨?_, rfl, rfl⟩
  unfold fetch_job
  rw [h]

/-- Witness for C2: a cached succeeded record returns the artifact content
with no remote interaction. -/
theorem fetch_job_cached_idempotent_witness :
    fetch_job envBoth rAErr rVFailedHello parseHello filesOld jrAnthSucceeded false
      = .ok ⟨"old\n", jrAnthSucceeded, false, none, false⟩ :=
  (fetch_job_cached_idempotent envBoth rAErr rVFailedHello parseHello filesOld
    jrAnthSucceeded "old\n" (by rfl)).1

/-- C9: when the remote submit call raises, `submit_job` propagates the
error, adding no record to the job table and writing no metadata snapshot;
the record is persisted exactly when the remote submission succeeds. -/
theorem submit_job_error_propagation (env : Env) (eff : SubmitEffects)
    (sha : String → String) (now_iso custom_id results_dir packet bc : String)
    (label : Option String) (store : JobsMap) (e : String) :
    (choose_backend bc env = .ok .anthropic → truthyS env.anthropic_api_key = true →
      eff.submitA = .error e →
      submit_job env eff sha now_iso custom_id results_dir packet bc label store = .error e)
    ∧ (choose_backend bc env = .ok .vertex →
      (truthyS env.vertex_project && truthyS env.vertex_location
        && truthyS env.vertex_gcs_bucket) = true →
      eff.submitV = .error e →
      submit_job env eff sha now_iso custom_id results_dir packet bc label store = .error e)
    ∧ ∀ batch_id, choose_backend bc env = .ok .anthropic →
        truthyS env.anthropic_api_key = true → eff.submitA = .ok batch_id →
        ∃ jr : JobRecord, jr.state = "submitted"
          ∧ submit_job env eff sha now_iso custom_id results_dir packet bc label store
            = .ok (jr, storeInsert store jr.job_id jr, [(jr.meta_path, jr)]) := by
  refine ⟨fun hc hk hs => ?_, fun hc hk hs => ?_, fun bid hc hk hs => ?_⟩
  · simp [submit_job, hc, hk, hs]
  · simp [submit_job, hc, hk, hs]
  · refine ⟨{
      job_id := bid
      backend := .anthropic
      label := label
      created_at := now_iso
      state := "submitted"
      packet_sha256 := sha packet
      result_path := (make_result_paths results_dir bid).1
      meta_path := (make_result_paths results_dir bid).2
      attempt := 0
      next_poll_at := some now_iso
      anthropic_custom_id := some custom_id
      vertex_project := none
      vertex_location := none
      gcs_input_uri := none
      gcs_output_uri_pfx := none }, rfl, ?_⟩
    simp [submit_job, hc, hk, hs]

/-- Witness for C9: a raising Anthropic submit call propagates its error. -/
theorem submit_job_error_propagation_witness :
    submit_job envBoth ⟨.error "submit boom", .error "submit boom"⟩ (fun s => s)
      "t0" "c" "res" "packet" "anthropic" none [] = .error "submit boom" :=
  (submit_job_error_propagation envBoth ⟨.error "submit boom", .error "submit boom"⟩
    (fun s => s) "t0" "c" "res" "packet" "anthropic" none [] "submit boom").1
    (by rfl) (by rfl) rfl

theorem extractLoop_cons_skip (cidO : Option String) (e : JValue) (rest : List JValue)
    (acc : List String) (ht : truthyS cidO = true)
    (hm : matchesCid cidO (e.get? "custom_id") = false) :
    extractLoop cidO (e :: rest) acc = extractLoop cidO rest acc := by
  simp [extractLoop, ht, hm]

theorem extractLoop_cons_bad (cidO : Option String) (e : JValue) (rest : List JValue)
    (acc : List String) (ht : truthyS cidO = true)
    (hm : matchesCid cidO (e.get? "custom_id") = true)
    (hr : isStrEq ((e.getD "result" (.obj [])).get? "type") "succeeded" = false) :
    extractLoop cidO (e :: rest) acc = dumps e := by
  simp [extractLoop, ht, hm, hr]

theorem extractLoop_filter (cid : String) (h : cid ≠ "") (entries : List JValue) :
    ∀ acc, extractLoop (some cid) entries acc
      = extractLoop (some cid)
          (entries.filter (fun e => isStrEq (e.get? "custom_id") cid)) acc := by
  have ht : truthyS (some cid) = true := bne_iff_ne.mpr h
  induction entries with
  | nil => intro acc; rfl
  | cons e rest ih =>
    intro acc
    rw [List.filter_cons]
    cases hm : isStrEq (e.get? "custom_id") cid with
    | false =>
      simp only [hm, Bool.false_eq_true, if_false]
      rw [extractLoop_cons_skip _ _ _ _ ht hm]
      exact ih acc
    | true =>
      simp only [hm, if_true]
      cases hr : isStrEq ((e.getD "result" (.obj [])).get? "type") "succeeded" with
      | false =>
        rw [extractLoop_cons_bad _ _ _ _ ht hm hr, extractLoop_cons_bad _ _ _ _ ht hm hr]
      | true =>
        simp only [extractLoop, matchesCid, ht, hm, hr, Bool.not_true,
          Bool.and_false, Bool.false_eq_true, if_false, Bool.not_false,
          Bool.true_and, Bool.and_true]
        split
        · exact ih _
        · exact ih _

theorem extractLoop_first_match_bad (cid : String) (h : cid ≠ "") :
    ∀ pre : List JValue, ∀ e : JValue, ∀ post : List JValue, ∀ acc : List String,
      (∀ p ∈ pre, isStrEq (p.get? "custom_id") cid = false) →
      isStrEq (e.get? "custom_id") cid = true →
      isStrEq ((e.getD "result" (.obj [])).get? "type") "succeeded" = false →
      extractLoop (some cid) (pre ++ e :: post) acc = dumps e := by
  have ht : truthyS (some cid) = true := bne_iff_ne.mpr h
  intro pre
  induction pre with
  | nil =>
    intro e post acc _ hm hr
    exact extractLoop_cons_bad _ _ _ _ ht hm hr
  | cons p rest ih =>
    intro e post acc hpre hm hr
    have hp : isStrEq (p.get? "custom_id") cid = false := hpre p (List.mem_cons_self p rest)
    rw [List.cons_append, extractLoop_cons_skip _ _ _ _ ht hp]
    exact ih e post acc (fun q hq => hpre q (List.mem_cons_of_mem p hq)) hm hr

/-- C5: with a non-empty correlation id, Anthropic-backend extraction
depends only on the entries whose `custom_id` equals that id — foreign
entries are ignored — and when the first matching entry's result type is
not `succeeded`, the whole call returns that raw entry serialized, not the
accumulated text. -/
theorem anthropic_extraction_isolates_id (cid : String) (hcid : cid ≠ "")
    (entries : List JValue) :
    extract_text_from_jsonl entries (some cid)
      = extract_text_from_jsonl
          (entries.filter (fun e => isStrEq (e.get? "custom_id") cid)) (some cid)
    ∧ ∀ pre e post, entries = pre ++ e :: post →
        (∀ p ∈ pre, isStrEq (p.get? "custom_id") cid = false) →
        isStrEq (e.get? "custom_id") cid = true →
        isStrEq ((e.getD "result" (.obj [])).get? "type") "succeeded" = false →
        extract_text_from_jsonl entries (some cid) = dumps e := by
  constructor
  · exact extractLoop_filter cid hcid entries []
  · intro pre e post hsplit hpre hm hr
    rw [hsplit]
    exact extractLoop_first_match_bad cid hcid pre e post [] hpre hm hr

/-- Witness for C5: a stream with a foreign succeeded entry followed by a
non-succeeded entry for id `c` surfaces the raw non-succeeded entry. -/
theorem anthropic_extraction_isolates_id_witness :
    extract_text_from_jsonl [aEntryForeign, aEntryErrored] (some "c") = dumps aEntryErrored
    ∧ extract_text_from_jsonl [aEntryForeign, aEntryErrored] (some "c")
      = extract_text_from_jsonl
          ([aEntryForeign, aEntryErrored].filter
            (fun e => isStrEq (e.get? "custom_id") "c")) (some "c") :=
  ⟨(anthropic_extraction_isolates_id "c" (by decide) [aEntryForeign, aEntryErrored]).2
      [aEntryForeign] aEntryErrored [] rfl (by decide) (by decide) (by decide),
    (anthropic_extraction_isolates_id "c" (by decide) [aEntryForeign, aEntryErrored]).1⟩

theorem fetch_job_error_fields (env : Env) (rA : String → AnthropicRemote)
    (rV : String → VertexRemote) (parse : String → Option JValue)
    (files : String → Option String) (jr : JobRecord) (force : Bool)
    (er : FetchErr) (h : fetch_job env rA rV parse files jr force = .error er) :
    er.job.state = jr.state ∧ er.job.attempt = jr.attempt
    ∧ er.job.next_poll_at = jr.next_poll_at ∧ er.job.job_id = jr.job_id := by
  unfold fetch_job at h
  repeat' (first | split at h | simp at h)
  all_goals subst h
  all_goals exact ⟨rfl, rfl, rfl, rfl⟩

/-- C10: a non-terminal record whose `next_poll_at` is absent or fails to
parse is due, and the sweep processes it — it either completes or its
attempt count advances — rather than raising or skipping it; the sweep over
a list decomposes through that record as usual. -/
theorem poll_due_missing_or_bad_timestamp (P : PollEnv)
    (files : String → Option String) (jr : JobRecord) (rest : List JobRecord)
    (hterm : (jr.state == "succeeded" || jr.state == "failed") = false)
    (hbad : jr.next_poll_at = none
      ∨ ∃ s, jr.next_poll_at = some s ∧ P.parseTime s = none) :
    job_due P.parseTime P.now jr.next_poll_at = true
    ∧ ((pollStep P files jr).1 = [jr.job_id]
        ∨ (pollStep P files jr).2.1.attempt = jr.attempt + 1)
    ∧ poll_once P (jr :: rest) files
      = ((pollStep P files jr).1 ++ (poll_once P rest (pollStep P files jr).2.2).1,
          (pollStep P files jr).2.1 :: (poll_once P rest (pollStep P files jr).2.2).2) := by
  have hdue : job_due P.parseTime P.now jr.next_poll_at = true := by
    rcases hbad with h | ⟨s, hs, hp⟩
    · rw [h]; rfl
    · rw [hs]; unfold job_due
      cases he : s == "" with
      | true => simp [he]
      | false => simp [he, hp]
  refine ⟨hdue, ?_, rfl⟩
  unfold pollStep
  simp only [hterm, Bool.false_eq_true, if_false, hdue, Bool.not_true]
  cases hst : status_job P.env P.rA P.rV jr with
  | error e => right; simp [applyBackoff]
  | ok st =>
    cases hbk : jr.backend with
    | anthropic =>
      cases hed : isStrEq (st.get? "processing_status") "ended" with
      | true =>
        cases hf : fetch_job P.env P.rA P.rV P.parse files jr false with
        | ok r => left; simp [hed, hf]
        | error er =>
          right
          have hp := fetch_job_error_fields P.env P.rA P.rV P.parse files jr false er hf
          simp [hed, hf, applyBackoff, hp.2.1]
      | false => right; simp [hed, applyBackoff]
    | vertex =>
      cases hed : doneStates (st.get? "state") with
      | true =>
        cases hf : fetch_job P.env P.rA P.rV P.parse files jr false with
        | ok r => left; simp [hed, hf]
        | error er =>
          right
          have hp := fetch_job_error_fields P.env P.rA P.rV P.parse files jr false er hf
          simp [hed, hf, applyBackoff, hp.2.1]
      | false => right; simp [hed, applyBackoff]

/-- Witness for C10: a submitted record with no `next_poll_at` under a
sweep whose status call raises is due and has its attempt advanced. -/
theorem poll_due_missing_or_bad_timestamp_witness :
    job_due pollEnvErr.parseTime pollEnvErr.now jrAnthSubmitted.next_poll_at = true
    ∧ ((pollStep pollEnvErr noFiles jrAnthSubmitted).1 = [jrAnthSubmitted.job_id]
        ∨ (pollStep pollEnvErr noFiles jrAnthSubmitted).2.1.attempt
          = jrAnthSubmitted.attempt + 1) :=
  ⟨(poll_due_missing_or_bad_timestamp pollEnvErr noFiles jrAnthSubmitted []
      (by decide) (Or.inl rfl)).1,
    (poll_due_missing_or_bad_timestamp pollEnvErr noFiles jrAnthSubmitted []
      (by decide) (Or.inl rfl)).2.1⟩

theorem fetch_ok_remote_shape (env : Env) (rA : String → AnthropicRemote)
    (rV : String → VertexRemote) (parse : String → Option JValue)
    (files : String → Option String) (jr : JobRecord) (force : Bool)
    (r : FetchResult) (hok : fetch_job env rA rV parse files jr force = .ok r)
    (hrc : r.remoteCalled = true) :
    r.wroteResult = some (r.text ++ "\n")
    ∧ (r.job.state = "succeeded" ∨ r.job.state = "failed")
    ∧ (jr.backend = .anthropic → (r.job.state = "succeeded" ↔ pyStrip r.text ≠ ""))
    ∧ (jr.backend = .vertex → ∀ info, (rV jr.job_id).retrieve = .ok info →
        (r.job.state = "succeeded"
          ↔ isStrEq (info.get? "state") "JOB_STATE_SUCCEEDED" = true)) := by
  unfold fetch_job at hok
  repeat' (first | split at hok | simp at hok)
  all_goals subst hok
  all_goals simp_all

theorem pollStep_state_shape (P : PollEnv) (files : String → Option String)
    (jr : JobRecord) :
    (pollStep P files jr).2.1.state = jr.state
    ∨ (pollStep P files jr).2.1.state = "running"
    ∨ ∃ r, fetch_job P.env P.rA P.rV P.parse files jr false = .ok r
        ∧ (pollStep P files jr).2.1 = r.job := by
  unfold pollStep
  split
  · exact Or.inl rfl
  split
  · exact Or.inl rfl
  split
  · left; simp [applyBackoff]
  split
  · split
    · split
      next r heq => right; right; exact ⟨r, heq, rfl⟩
      next er heq =>
        left
        have hp := fetch_job_error_fields P.env P.rA P.rV P.parse files jr false er heq
        simp [applyBackoff, hp.1]
    · right; left; simp [applyBackoff]
  · split
    · split
      next r heq => right; right; exact ⟨r, heq, rfl⟩
      next er heq =>
        left
        have hp := fetch_job_error_fields P.env P.rA P.rV P.parse files jr false er heq
        simp [applyBackoff, hp.1]
    · right; left; simp [applyBackoff]

theorem submit_state_submitted (env : Env) (eff : SubmitEffects) (sha : String → String)
    (now_iso custom_id results_dir packet bc : String) (label : Option String)
    (store : JobsMap) (jr : JobRecord) (st2 : JobsMap) (metas : List (String × JobRecord))
    (h : submit_job env eff sha now_iso custom_id results_dir packet bc label store
      = .ok (jr, st2, metas)) : jr.state = "submitted" := by
  unfold submit_job at h
  repeat' (first | split at h | simp at h)
  all_goals obtain ⟨h1, h2, h3⟩ := h
  all_goals subst h1
  all_goals rfl

/-- Counterexample to C1 as stated: a Vertex-backend fetch that completes
without error, extracts non-empty text, and still sets the record's state
to `failed` — because the Vertex branch derives the terminal state from
the remote job state (`JOB_STATE_FAILED` here), not from text emptiness. -/
theorem fetch_terminal_state_counterexample :
    fetch_job envBoth rAErr rVFailedHello parseHello noFiles jrVertexRunning false
      = .ok ⟨"hello", { jrVertexRunning with state := "failed" }, false,
          some ("hello" ++ "\n"), true⟩
    ∧ pyStrip "hello" ≠ ""
    ∧ ({ jrVertexRunning with state := "failed" } : JobRecord).state ≠ "succeeded" :=
  ⟨rfl, by decide, by decide⟩

/-- C1 (amended): every non-cached completed fetch writes the extracted
text (plus a newline) to the result artifact and sets a terminal state;
for the Anthropic backend `succeeded` holds exactly when the stripped
extracted text is non-empty, while for the Vertex backend it holds exactly
when the remote job state is `JOB_STATE_SUCCEEDED`; and fetch remains the
only operation that sets a terminal state — a poll step otherwise only
preserves the state or sets `running`, and submit creates records as
`submitted`. -/
theorem fetch_only_terminal_setter_amended :
    (∀ env rA rV parse files (jr : JobRecord) force r,
      fetch_job env rA rV parse files jr force = .ok r → r.remoteCalled = true →
      r.wroteResult = some (r.text ++ "\n")
      ∧ (r.job.state = "succeeded" ∨ r.job.state = "failed")
      ∧ (jr.backend = .anthropic → (r.job.state = "succeeded" ↔ pyStrip r.text ≠ ""))
      ∧ (jr.backend = .vertex → ∀ info, (rV jr.job_id).retrieve = .ok info →
          (r.job.state = "succeeded"
            ↔ isStrEq (info.get? "state") "JOB_STATE_SUCCEEDED" = true)))
    ∧ (∀ P files (jr : JobRecord),
      (pollStep P files jr).2.1.state = jr.state
      ∨ (pollStep P files jr).2.1.state = "running"
      ∨ ∃ r, fetch_job P.env P.rA P.rV P.parse files jr false = .ok r
          ∧ (pollStep P files jr).2.1 = r.job)
    ∧ (∀ env eff sha now_iso custom_id results_dir packet bc label store
        (jr : JobRecord) st2 metas,
      submit_job env eff sha now_iso custom_id results_dir packet bc label store
        = .ok (jr, st2, metas) → jr.state = "submitted") :=
  ⟨fun env rA rV parse files jr force r hok hrc =>
      fetch_ok_remote_shape env rA rV parse files jr force r hok hrc,
    fun P files jr => pollStep_state_shape P files jr,
    fun env eff sha now_iso custom_id results_dir packet bc label store jr st2 metas h =>
      submit_state_submitted env eff sha now_iso custom_id results_dir packet bc label
        store jr st2 metas h⟩

/-- Witness for the amended C1 at a concrete Anthropic fetch that succeeds
with text `hi`. -/
theorem fetch_only_terminal_setter_amended_witness :
    (⟨"hi", { jrAnthRunning with state := "succeeded" }, true, some ("hi" ++ "\n"), true⟩
        : FetchResult).wroteResult = some ("hi" ++ "\n")
    ∧ (({ jrAnthRunning with state := "succeeded" } : JobRecord).state = "succeeded"
        ∨ ({ jrAnthRunning with state := "succeeded" } : JobRecord).state = "failed") :=
  have h := fetch_only_terminal_setter_amended.1 envBoth rAok rVFailedHello parseHello
    noFiles jrAnthRunning false
    ⟨"hi", { jrAnthRunning with state := "succeeded" }, true, some ("hi" ++ "\n"), true⟩
    rfl rfl
  ⟨h.1, h.2.1⟩

/-- Counterexample to C4 as stated: a forced refetch on a record already in
the `succeeded` terminal state completes and sets the state to `failed`
(the remote results stream is now empty), so a terminal state can change
again. -/
theorem terminal_regress_counterexample :
    jrAnthSucceeded.state = "succeeded"
    ∧ fetch_job envBoth rAEmptyResults rVFailedHello parseHello filesOld jrAnthSucceeded true
      = .ok ⟨"", { jrAnthSucceeded with state := "failed" }, true, some "\n", true⟩
    ∧ ({ jrAnthSucceeded with state := "failed" } : JobRecord).state = "failed" :=
  ⟨rfl, rfl, rfl⟩

/-- C4 (amended): a sweep leaves a terminal record entirely unchanged
(state, attempt, next_poll_at, and the artifact map), and a non-forced
fetch whose result artifact is present returns the cache leaving the
record unchanged; only a fetch with `force` (or with the artifact missing)
recomputes and may set either terminal state anew. -/
theorem terminal_stability_amended :
    (∀ P files (jr : JobRecord) (rest : List JobRecord),
      (jr.state = "succeeded" ∨ jr.state = "failed") →
      pollStep P files jr = ([], jr, files)
      ∧ poll_once P (jr :: rest) files
        = ((poll_once P rest files).1, jr :: (poll_once P rest files).2))
    ∧ (∀ env rA rV parse files (jr : JobRecord) cached,
      files jr.result_path = some cached →
      fetch_job env rA rV parse files jr false = .ok ⟨cached, jr, false, none, false⟩) := by
  constructor
  · intro P files jr rest hterm
    have hb : (jr.state == "succeeded" || jr.state == "failed") = true := by
      rcases hterm with h | h <;> simp [h]
    have hstep : pollStep P files jr = ([], jr, files) := by
      unfold pollStep
      simp [hb]
    refine ⟨hstep, ?_⟩
    show poll_once P (jr :: rest) files = _
    simp [poll_once, hstep]
  · intro env rA rV parse files jr cached h
    unfold fetch_job
    rw [h]

/-- Witness for the amended C4: a sweep over one succeeded record leaves it
untouched and completes nothing. -/
theorem terminal_stability_amended_witness :
    pollStep pollEnvErr noFiles jrAnthSucceeded = ([], jrAnthSucceeded, noFiles)
    ∧ poll_once pollEnvErr [jrAnthSucceeded] noFiles = ([], [jrAnthSucceeded]) := by
  have h := terminal_stability_amended.1 pollEnvErr noFiles jrAnthSucceeded [] (Or.inl rfl)
  refine ⟨h.1, ?_⟩
  rw [h.2]
  rfl

/-- Counterexample to C3 as stated: a sweep over one submitted job whose
status call raises (no credentials) leaves the state unchanged and advances
`next_poll_at`, but also increments `attempt` from 0 to 1 — the backoff
tail runs `attempt += 1` after the swallowed exception. -/
theorem sweep_error_attempt_advances_counterexample :
    poll_once pollEnvErr [jrAnthSubmitted] noFiles
      = ([], [{ jrAnthSubmitted with attempt := 1, next_poll_at := some "T1" }])
    ∧ ({ jrAnthSubmitted with attempt := 1, next_poll_at := some "T1" } : JobRecord).attempt
      ≠ jrAnthSubmitted.attempt
    ∧ ({ jrAnthSubmitted with attempt := 1, next_poll_at := some "T1" } : JobRecord).state
      = jrAnthSubmitted.state :=
  ⟨rfl, by decide, rfl⟩

/-- C3 (amended): when the status call raises, or the status routes into a
fetch that raises, for a due non-terminal job, that job's poll step
completes nothing, writes nothing, leaves `state` unchanged, increments
`attempt` by one, and advances `next_poll_at` by the backoff delay computed
from the old attempt; the sweep still processes the remaining jobs exactly
as it would without this job's error. -/
theorem sweep_error_isolated_amended (P : PollEnv) (files : String → Option String)
    (jr : JobRecord) (rest : List JobRecord)
    (hterm : (jr.state == "succeeded" || jr.state == "failed") = false)
    (hdue : job_due P.parseTime P.now jr.next_poll_at = true)
    (hfail : (∃ e, status_job P.env P.rA P.rV jr = .error e)
      ∨ ∃ st, status_job P.env P.rA P.rV jr = .ok st ∧ fetchTriggered jr st = true
          ∧ ∃ er, fetch_job P.env P.rA P.rV P.parse files jr false = .error er) :
    (pollStep P files jr).1 = []
    ∧ (pollStep P files jr).2.2 = files
    ∧ (pollStep P files jr).2.1.state = jr.state
    ∧ (pollStep P files jr).2.1.attempt = jr.attempt + 1
    ∧ (pollStep P files jr).2.1.next_poll_at
        = some (P.fmt (P.now + backoffDefault jr.attempt (P.jit jr.job_id)))
    ∧ poll_once P (jr :: rest) files
      = ((poll_once P rest files).1,
          (pollStep P files jr).2.1 :: (poll_once P rest files).2) := by
  have hmain : ∃ jrb : JobRecord, pollStep P files jr = ([], applyBackoff P jrb, files)
      ∧ jrb.state = jr.state ∧ jrb.attempt = jr.attempt ∧ jrb.job_id = jr.job_id := by
    rcases hfail with ⟨e, he⟩ | ⟨st, hst, htr, er, hf⟩
    · refine ⟨jr, ?_, rfl, rfl, rfl⟩
      unfold pollStep
      simp [hterm, hdue, he]
    · have hfields := fetch_job_error_fields P.env P.rA P.rV P.parse files jr false er hf
      refine ⟨er.job, ?_, hfields.1, hfields.2.1, hfields.2.2.2⟩
      unfold pollStep
      cases hbk : jr.backend with
      | anthropic =>
        have htr' : isStrEq (st.get? "processing_status") "ended" = true := by
          simpa [fetchTriggered, hbk] using htr
        simp [hterm, hdue, hst, hbk, htr', hf]
      | vertex =>
        have htr' : doneStates (st.get? "state") = true := by
          simpa [fetchTriggered, hbk] using htr
        simp [hterm, hdue, hst, hbk, htr', hf]
  obtain ⟨jrb, hstep, hs, ha, hid⟩ := hmain
  refine ⟨by rw [hstep], by rw [hstep], ?_, ?_, ?_, ?_⟩
  · rw [hstep]; simp [applyBackoff, hs]
  · rw [hstep]; simp [applyBackoff, ha]
  · rw [hstep]; simp [applyBackoff, ha, hid]
  · show poll_once P (jr :: rest) files = _
    simp [poll_once, hstep]

/-- Witness for the amended C3 at a concrete one-job sweep whose status
call raises for missing credentials. -/
theorem sweep_error_isolated_amended_witness :
    (pollStep pollEnvErr noFiles jrAnthSubmitted).1 = []
    ∧ (pollStep pollEnvErr noFiles jrAnthSubmitted).2.1.state = jrAnthSubmitted.state
    ∧ (pollStep pollEnvErr noFiles jrAnthSubmitted).2.1.attempt
      = jrAnthSubmitted.attempt + 1 :=
  have h := sweep_error_isolated_amended pollEnvErr noFiles jrAnthSubmitted []
    (by decide) rfl (Or.inl ⟨"ANTHROPIC_API_KEY missing.", rfl⟩)
  ⟨h.1, h.2.2.1, h.2.2.2.1⟩
